import Mathlib

/-!
Verification of the price-tracker core (src/app.py).

The program scrapes two eBay regional sold-listing pages, parses each
listing container into a record (title, price, link, date), combines the
two record sets, removes duplicates by the (title, price, date) key, and
reports per-title and overall price statistics.

The embedding below follows src/app.py.  HTML access is modelled at the
level the code observes it: a container is the finite map from CSS
selector to the first matching sub-element (the behaviour of select_one),
and an HTTP fetch either fails or yields the list of containers matched
by select on li.s-item.  String operations are implemented over lists of
characters so that concrete runs reduce inside the kernel; prices are
rationals, the exact model of the decimal arithmetic the claims exercise.
-/

namespace App

/-- An HTML element as the parser sees it: its text content and, for
anchor elements, its href attribute. -/
structure Elem where
  text : String
  href : String := ""
deriving DecidableEq

/-- One listing container (a li.s-item node), modelled as the finite map
from CSS selector to the first sub-element that selector matches; a
selector absent from the list matches nothing. -/
structure Item where
  selectors : List (String × Elem)
deriving DecidableEq

/-- item.select_one(sel): the first element the selector matches, if any. -/
def Item.selectOne (it : Item) (sel : String) : Option Elem :=
  List.lookup sel it.selectors

/-- One scraped sold listing: the row dict appended at src/app.py:68-73
(columns Title, Price (CAD), Link, Date). -/
structure Record where
  title : String
  price : ℚ
  link : String
  date : String
deriving DecidableEq

/-- Python str.strip over the character list: leading and trailing
whitespace removed. -/
def trimChars (l : List Char) : List Char :=
  ((l.dropWhile Char.isWhitespace).reverse.dropWhile Char.isWhitespace).reverse

/-- Python s.strip() for String values. -/
def pyStrip (s : String) : String :=
  String.mk (trimChars s.data)

/-- Python s.replace(c, for a one-character pattern and empty
replacement): every occurrence of the character is removed. -/
def removeChar (c : Char) (l : List Char) : List Char :=
  l.filter (fun a => !(a == c))

/-- The price-text cleaning of src/app.py:62:
price text stripped, then all dollar signs removed, then all commas
removed. -/
def cleanPrice (s : String) : List Char :=
  removeChar ',' (removeChar '$' (trimChars s.data))

/-- One step of Python str.split() with no separator, folded from the
right: a whitespace character closes the current token, any other
character extends it. -/
def splitWsAux (c : Char) (acc : List (List Char)) : List (List Char) :=
  if c.isWhitespace then [] :: acc
  else
    match acc with
    | [] => [[c]]
    | t :: ts => (c :: t) :: ts

/-- Python str.split() with no separator: split on whitespace runs,
dropping empty pieces. -/
def splitWs (l : List Char) : List (List Char) :=
  (l.foldr splitWsAux [[]]).filter (fun t => !t.isEmpty)

/-- The whitespace-delimited tokens of a character list, as strings. -/
def tokens (l : List Char) : List String :=
  (splitWs l).map String.mk

/-- Value of a digit string, most significant first. -/
def digitsVal (ds : List Char) : ℕ :=
  ds.foldl (fun n c => 10 * n + (c.toNat - 48)) 0

/-- A scanned decimal literal: sign, integer-part value, fraction-part
value, and number of fraction digits. -/
structure DecLit where
  neg : Bool
  ip : ℕ
  fp : ℕ
  fl : ℕ
deriving DecidableEq

/-- Scanner for Python float() restricted to the decimal forms price
tokens take: optional sign, integer digits, optional dot and fraction
digits, at least one digit overall.  Returns none exactly when float()
raises ValueError on such a token (exponent, infinity and nan spellings,
which no price text uses, are outside the model). -/
def scanDecimal? (s : String) : Option DecLit :=
  let signBody : Bool × List Char :=
    match s.data with
    | '+' :: cs => (false, cs)
    | '-' :: cs => (true, cs)
    | cs => (false, cs)
  let neg := signBody.1
  let body := signBody.2
  let ip := body.takeWhile Char.isDigit
  match body.dropWhile Char.isDigit with
  | [] => if ip.isEmpty then none else some ⟨neg, digitsVal ip, 0, 0⟩
  | '.' :: fp =>
    if fp.all Char.isDigit && !(ip.isEmpty && fp.isEmpty) then
      some ⟨neg, digitsVal ip, digitsVal fp, fp.length⟩
    else none
  | _ => none

/-- Numeric value of a scanned decimal literal. -/
def DecLit.toRat (d : DecLit) : ℚ :=
  (if d.neg then -1 else 1) * ((d.ip : ℚ) + (d.fp : ℚ) / (10 : ℚ) ^ d.fl)

/-- Python float(s) on a price token: some value on success, none when
the conversion raises. -/
def parseFloat? (s : String) : Option ℚ :=
  (scanDecimal? s).map DecLit.toRat

/-- Python substring containment: needle in hay, over character lists. -/
def isPrefixChars : List Char → List Char → Bool
  | [], _ => true
  | _ :: _, [] => false
  | a :: as, b :: bs => a == b && isPrefixChars as bs

/-- Containment of a needle at any position of the haystack. -/
def containsChars (needle : List Char) : List Char → Bool
  | [] => isPrefixChars needle []
  | c :: cs => isPrefixChars needle (c :: cs) || containsChars needle cs

/-- Python substring test on strings. -/
def substrOf (needle hay : String) : Bool :=
  containsChars needle.data hay.data

/-- The placeholder filter of src/app.py:57-58: a title containing
either known placeholder substring marks a non-listing container. -/
def placeholderTitle (t : String) : Bool :=
  substrOf "Shop on eBay" t || substrOf "New Listing" t

/-- The date element lookup of src/app.py:50: the newer ended-date
selector first, the older listingDate selector as fallback. -/
def dateOf (it : Item) : Option Elem :=
  (it.selectOne ".s-item__ended-date").orElse
    (fun _ => it.selectOne ".s-item__listingDate")

/-- The body of the per-container loop of get_ebay_data
(src/app.py:43-73).  Except.ok (some r) appends the record r;
Except.ok none is the continue that skips the container; Except.error ()
is the uncaught IndexError that split()[0] raises when the cleaned price
text contains no token (that subscript sits outside the try block, so it
aborts the whole call).  The date element is read only when the record
is built, which is equivalent to the source's earlier read because the
lookup is pure. -/
def processItem (it : Item) : Except Unit (Option Record) :=
  match it.selectOne ".s-item__title", it.selectOne ".s-item__price",
      it.selectOne "a.s-item__link" with
  | some title_elem, some price_elem, some link_elem =>
    if placeholderTitle title_elem.text then Except.ok none
    else
      match tokens (cleanPrice price_elem.text) with
      | [] => Except.error ()
      | raw_price_text :: _ =>
        match parseFloat? raw_price_text with
        | none => Except.ok none
        | some price_val =>
          Except.ok (some
            { title := pyStrip title_elem.text
              price := price_val
              link := link_elem.href
              date :=
                match dateOf it with
                | some date_elem => pyStrip date_elem.text
                | none => "N/A" })
  | _, _, _ => Except.ok none

/-- The whole container loop: records of the surviving containers in
document order, or the first uncaught exception. -/
def processItems : List Item → Except Unit (List Record)
  | [] => Except.ok []
  | it :: rest =>
    match processItem it with
    | Except.error e => Except.error e
    | Except.ok none => processItems rest
    | Except.ok (some r) =>
      match processItems rest with
      | Except.error e => Except.error e
      | Except.ok rs => Except.ok (r :: rs)

/-- Outcome of the one HTTP GET of src/app.py:30-35: error covers a
raise inside requests.get (transport failure, timeout) as well as
raise_for_status on a non-success status; ok carries the containers
select finds on the body. -/
inductive HttpResult where
  | error : HttpResult
  | ok : List Item → HttpResult

/-- The search URL of src/app.py:23-27: spaces become plus signs, and
the sold and completed filters are appended. -/
def buildUrl (search_term domain : String) : String :=
  "https://www.ebay." ++ domain ++ "/sch/i.html?_nkw=" ++
    (search_term.replace " " "+") ++ "&_sacat=0&LH_Sold=1&LH_Complete=1"

/-- get_ebay_data (src/app.py:17-75), with the network abstracted as a
map from URL to fetch outcome: a failed fetch yields the empty record
list; a successful fetch yields the parsed containers' records. -/
def get_ebay_data (search_term domain : String) (http : String → HttpResult) :
    Except Unit (List Record) :=
  match http (buildUrl search_term domain) with
  | HttpResult.error => Except.ok []
  | HttpResult.ok items => processItems items

/-- The duplicate-identity key of src/app.py:90: Title, Price, Date;
the link column is not part of the key. -/
def recordKey (r : Record) : String × ℚ × String :=
  (r.title, r.price, r.date)

/-- drop_duplicates with keep equal to first, carried out with the set
of keys already seen. -/
def dropDupsFrom : List Record → List (String × ℚ × String) → List Record
  | [], _ => []
  | r :: rest, seen =>
    if recordKey r ∈ seen then dropDupsFrom rest seen
    else r :: dropDupsFrom rest (recordKey r :: seen)

/-- The combine step of src/app.py:86-90: concatenate the two region
results in order, then (when non-empty) drop duplicate rows by the
(Title, Price, Date) key, keeping each key's first occurrence. -/
def combined (df_ca df_com : List Record) : List Record :=
  if df_ca ++ df_com = [] then df_ca ++ df_com
  else dropDupsFrom (df_ca ++ df_com) []

/-- Modelled from the spec: the deduplicated sequence keeps, in order,
exactly the first occurrence of each (title, price, date) key. -/
def firstOccSpec : List Record → List Record
  | [] => []
  | r :: rest =>
    r :: List.filter (fun s => decide (recordKey s ≠ recordKey r)) (firstOccSpec rest)

/-- Minimum of a price list (well-defined on the non-empty lists the
program feeds it). -/
def listMin : List ℚ → ℚ
  | [] => 0
  | x :: xs => xs.foldl min x

/-- Maximum of a price list. -/
def listMax : List ℚ → ℚ
  | [] => 0
  | x :: xs => xs.foldl max x

/-- Arithmetic mean of a price list. -/
def listMean (l : List ℚ) : ℚ :=
  l.sum / (l.length : ℚ)

/-- Insertion into an ascending list of rationals. -/
def insertRat (x : ℚ) : List ℚ → List ℚ
  | [] => [x]
  | y :: ys => if x ≤ y then x :: y :: ys else y :: insertRat x ys

/-- Ascending sort of a price list. -/
def sortRat (l : List ℚ) : List ℚ :=
  l.foldr insertRat []

/-- The median as pandas computes it: middle element of the sorted list
for an odd count, average of the two middle-ranked elements for an even
count. -/
def medianRat (l : List ℚ) : ℚ :=
  let s := sortRat l
  if s.length % 2 = 1 then s.getD (s.length / 2) 0
  else (s.getD (s.length / 2 - 1) 0 + s.getD (s.length / 2) 0) / 2

/-- Distinct strings of a list, first occurrences kept in order. -/
def dedupFirst : List String → List String
  | [] => []
  | t :: rest => t :: (dedupFirst rest).filter (fun s => !(s == t))

/-- Code-point lexicographic order on character lists: the order Python
and pandas sort strings by. -/
def lexLe : List Char → List Char → Bool
  | [], _ => true
  | _ :: _, [] => false
  | a :: as, b :: bs =>
    if a.toNat < b.toNat then true
    else if a.toNat = b.toNat then lexLe as bs else false

/-- Insertion into a lexicographically ascending list of strings. -/
def insertStr (x : String) : List String → List String
  | [] => [x]
  | y :: ys => if lexLe x.data y.data then x :: y :: ys else y :: insertStr x ys

/-- Ascending sort of a string list, the order groupby lists group keys
in. -/
def sortStr (l : List String) : List String :=
  l.foldr insertStr []

/-- One row of the category table of src/app.py:105-110: a group key
(exact title) with the count, mean, minimum and maximum of the group's
prices.  The later display formatting to two decimals is presentation
and is not part of the aggregation. -/
structure CatRow where
  title : String
  count : ℕ
  mean : ℚ
  low : ℚ
  high : ℚ
deriving DecidableEq

/-- The overall summary of src/app.py:122-125: median, mean, minimum
and maximum over all combined prices. -/
structure Overall where
  median : ℚ
  mean : ℚ
  low : ℚ
  high : ℚ
deriving DecidableEq

/-- Prices of the records whose title equals the group key exactly
(case-sensitive, no normalization). -/
def groupPrices (rs : List Record) (t : String) : List ℚ :=
  (rs.filter (fun r => r.title == t)).map Record.price

/-- groupby on Title with count, mean, min, max aggregation of the price
column (src/app.py:105-110); groupby sorts the group keys. -/
def grouped (rs : List Record) : List CatRow :=
  (sortStr (dedupFirst (rs.map Record.title))).map (fun t =>
    { title := t
      count := (groupPrices rs t).length
      mean := listMean (groupPrices rs t)
      low := listMin (groupPrices rs t)
      high := listMax (groupPrices rs t) })

/-- The overall statistics block of src/app.py:122-125. -/
def overall (rs : List Record) : Overall :=
  { median := medianRat (rs.map Record.price)
    mean := listMean (rs.map Record.price)
    low := listMin (rs.map Record.price)
    high := listMax (rs.map Record.price) }

/-- Result of the aggregation stage: the empty branch is the no-results
warning of src/app.py:96-97, and the stats branch carries the category
table and the overall summary computed at src/app.py:98-131. -/
inductive AggOutcome where
  | empty : AggOutcome
  | stats : List CatRow → Overall → AggOutcome
deriving DecidableEq

/-- The aggregation stage over the two region record lists: combine and
deduplicate, then either signal emptiness or compute the statistics.
The statistics are computed only in the non-empty branch, exactly as in
the source's if/else. -/
def aggregate (df_ca df_com : List Record) : AggOutcome :=
  if combined df_ca df_com = [] then AggOutcome.empty
  else
    AggOutcome.stats (grouped (combined df_ca df_com))
      (overall (combined df_ca df_com))

/-- The whole per-search pipeline of src/app.py:79-131: fetch the ca
region, fetch the com region, then aggregate.  An uncaught parse
exception propagates. -/
def runPipeline (query : String) (http : String → HttpResult) :
    Except Unit AggOutcome :=
  match get_ebay_data query "ca" http with
  | Except.error e => Except.error e
  | Except.ok df_ca =>
    match get_ebay_data query "com" http with
    | Except.error e => Except.error e
    | Except.ok df_com => Except.ok (aggregate df_ca df_com)

/-- A container is well formed when title, price and link are all
found, the title carries no placeholder substring, and the first
whitespace-delimited token of the cleaned price text scans as a decimal
number. -/
def wellFormedItem (it : Item) : Bool :=
  match it.selectOne ".s-item__title", it.selectOne ".s-item__price",
      it.selectOne "a.s-item__link" with
  | some title_elem, some price_elem, some _ =>
    !placeholderTitle title_elem.text &&
      (match tokens (cleanPrice price_elem.text) with
       | [] => false
       | raw_price_text :: _ => (scanDecimal? raw_price_text).isSome)
  | _, _, _ => false

/-- A placeholder container: its title is found and contains one of the
known placeholder substrings. -/
def placeholderItem (it : Item) : Bool :=
  match it.selectOne ".s-item__title" with
  | some title_elem => placeholderTitle title_elem.text
  | none => false

/-- A container whose title, price and link are all found and whose
title is no placeholder, but whose cleaned price text contains no
whitespace-delimited token at all, so that the subscript in
src/app.py:62 raises IndexError. -/
def emptyPriceItem (it : Item) : Bool :=
  match it.selectOne ".s-item__title", it.selectOne ".s-item__price",
      it.selectOne "a.s-item__link" with
  | some title_elem, some price_elem, some _ =>
    !placeholderTitle title_elem.text &&
      (tokens (cleanPrice price_elem.text)).isEmpty
  | _, _, _ => false

/-- Fixture: a well-formed container with a currency symbol and a
thousand separator in its price text and no date element. -/
def mapleItem : Item :=
  ⟨[(".s-item__title", ⟨"2023 Maple Leaf", ""⟩),
    (".s-item__price", ⟨"$1,234.50", ""⟩),
    ("a.s-item__link", ⟨"", "https://x"⟩)]⟩

/-- Fixture: a container whose price text cleans to the empty string,
leaving the subscript of src/app.py:62 with no token. -/
def dollarItem : Item :=
  ⟨[(".s-item__title", ⟨"1998 Penny", ""⟩),
    (".s-item__price", ⟨"$", ""⟩),
    ("a.s-item__link", ⟨"", "https://y"⟩)]⟩

/-- Fixture: a placeholder container injected by the marketplace. -/
def shopItem : Item :=
  ⟨[(".s-item__title", ⟨"Shop on eBay", ""⟩),
    (".s-item__price", ⟨"$20.00", ""⟩),
    ("a.s-item__link", ⟨"", "https://s"⟩)]⟩

/-- Fixture: a container whose price text has an unparseable first
token. -/
def bestOfferItem : Item :=
  ⟨[(".s-item__title", ⟨"1867 Token", ""⟩),
    (".s-item__price", ⟨"Best Offer", ""⟩),
    ("a.s-item__link", ⟨"", "https://b"⟩)]⟩

/-- Fixture: a container carrying its title only under the older h3
markup, outside the one selector the code consults for titles. -/
def oldMarkupItem : Item :=
  ⟨[("h3.s-item__title", ⟨"2019 Gold Maple", ""⟩),
    (".s-item__price", ⟨"$500.00", ""⟩),
    ("a.s-item__link", ⟨"", "https://z"⟩),
    (".s-item__ended-date", ⟨"May 1", ""⟩)]⟩

/-- Fixture: a container whose date appears only under the older
listingDate selector. -/
def listingDateItem : Item :=
  ⟨[(".s-item__title", ⟨"1967 Quarter", ""⟩),
    (".s-item__price", ⟨"$5", ""⟩),
    ("a.s-item__link", ⟨"", "https://w"⟩),
    (".s-item__listingDate", ⟨"Jun 2", ""⟩)]⟩

/-- Fixture: a well-formed container with no date element under either
selector. -/
def noDateItem : Item :=
  ⟨[(".s-item__title", ⟨"1936 Dot Cent", ""⟩),
    (".s-item__price", ⟨"$42", ""⟩),
    ("a.s-item__link", ⟨"", "https://n"⟩)]⟩

/-- Fixture: three records sharing one title. -/
def widgetRecords : List Record :=
  [⟨"Widget", 10, "l1", "d1"⟩, ⟨"Widget", 20, "l2", "d2"⟩,
   ⟨"Widget", 30, "l3", "d3"⟩]

/-- Fixture: two records with distinct titles. -/
def abRecords : List Record :=
  [⟨"A", 10, "la", "da"⟩, ⟨"B", 50, "lb", "db"⟩]

end App

namespace App

lemma processItem_of_placeholder (it : Item) (h : placeholderItem it = true) :
    processItem it = Except.ok none := by
  unfold placeholderItem at h
  cases ht : it.selectOne ".s-item__title" with
  | none => simp [ht] at h
  | some t =>
    simp [ht] at h
    unfold processItem
    cases hp : it.selectOne ".s-item__price" <;>
      cases hl : it.selectOne "a.s-item__link" <;>
        simp [ht, hp, hl, h]

lemma placeholder_not_wellFormed (it : Item) (h : placeholderItem it = true) :
    wellFormedItem it = false := by
  unfold placeholderItem at h
  unfold wellFormedItem
  cases ht : it.selectOne ".s-item__title" with
  | none => simp [ht] at h
  | some t =>
    simp [ht] at h
    cases hp : it.selectOne ".s-item__price" <;>
      cases hl : it.selectOne "a.s-item__link" <;>
        simp [ht, hp, hl, h]

lemma processItem_of_wellFormed (it : Item) (h : wellFormedItem it = true) :
    ∃ r, processItem it = Except.ok (some r) := by
  unfold wellFormedItem at h
  cases ht : it.selectOne ".s-item__title" with
  | none => simp [ht] at h
  | some t =>
    cases hp : it.selectOne ".s-item__price" with
    | none => simp [ht, hp] at h
    | some p =>
      cases hl : it.selectOne "a.s-item__link" with
      | none => simp [ht, hp, hl] at h
      | some l =>
        simp [ht, hp, hl, Bool.and_eq_true] at h
        obtain ⟨hph, hrest⟩ := h
        cases htok : tokens (cleanPrice p.text) with
        | nil => rw [htok] at hrest; simp at hrest
        | cons tok tl =>
          rw [htok] at hrest
          simp [Option.isSome_iff_exists] at hrest
          obtain ⟨d, hd⟩ := hrest
          refine ⟨⟨pyStrip t.text, d.toRat, l.href,
            match dateOf it with
            | some de => pyStrip de.text
            | none => "N/A"⟩, ?_⟩
          unfold processItem
          rw [ht, hp, hl]
          simp [hph, htok, parseFloat?, hd]

lemma processItem_skip (it : Item) (hw : wellFormedItem it = false)
    (he : emptyPriceItem it = false) : processItem it = Except.ok none := by
  unfold processItem
  cases ht : it.selectOne ".s-item__title" with
  | none => simp [ht]
  | some t =>
    cases hp : it.selectOne ".s-item__price" with
    | none => simp [ht, hp]
    | some p =>
      cases hl : it.selectOne "a.s-item__link" with
      | none => simp [ht, hp, hl]
      | some l =>
        unfold wellFormedItem at hw
        unfold emptyPriceItem at he
        rw [ht, hp, hl] at hw he
        by_cases hph : placeholderTitle t.text
        · simp [hph]
        · simp only [Bool.not_eq_true] at hph
          simp [hph] at hw he
          cases htok : tokens (cleanPrice p.text) with
          | nil => rw [htok] at he; simp at he
          | cons tok tl =>
            rw [htok] at hw
            simp at hw
            simp [hph, htok, parseFloat?, hw]

lemma processItem_of_emptyPrice (it : Item) (h : emptyPriceItem it = true) :
    processItem it = Except.error () := by
  unfold emptyPriceItem at h
  unfold processItem
  cases ht : it.selectOne ".s-item__title" with
  | none => simp [ht] at h
  | some t =>
    cases hp : it.selectOne ".s-item__price" with
    | none => simp [ht, hp] at h
    | some p =>
      cases hl : it.selectOne "a.s-item__link" with
      | none => simp [ht, hp, hl] at h
      | some l =>
        simp [ht, hp, hl, Bool.and_eq_true] at h
        obtain ⟨hph, hemp⟩ := h
        simp [hph, hemp]

end App

namespace App

lemma dropDupsFrom_eq (rs : List Record) :
    ∀ seen, dropDupsFrom rs seen =
      (firstOccSpec rs).filter (fun r => decide (recordKey r ∉ seen)) := by
  induction rs with
  | nil => intro seen; rfl
  | cons r rest ih =>
    intro seen
    unfold dropDupsFrom firstOccSpec
    rw [List.filter_cons]
    by_cases h : recordKey r ∈ seen
    · rw [if_pos h, if_neg (by simp [h]), List.filter_filter, ih seen]
      apply List.filter_congr
      intro x _
      have hne : recordKey x ∈ seen ∨ recordKey x ≠ recordKey r := by
        by_cases hx : recordKey x = recordKey r
        · exact Or.inl (hx ▸ h)
        · exact Or.inr hx
      by_cases h2 : recordKey x ∈ seen
      · simp [h2]
      · rcases hne with h1 | h1
        · exact absurd h1 h2
        · simp [h1, h2]
    · rw [if_neg h, if_pos (by simp [h]), ih (recordKey r :: seen),
        List.filter_filter]
      congr 1
      apply List.filter_congr
      intro x _
      by_cases h1 : recordKey x = recordKey r <;>
        by_cases h2 : recordKey x ∈ seen <;>
          simp [h1, h2, List.mem_cons]

lemma combined_eq (A B : List Record) :
    combined A B = firstOccSpec (A ++ B) := by
  unfold combined
  by_cases h : A ++ B = []
  · rw [if_pos h, h]; rfl
  · rw [if_neg h, dropDupsFrom_eq]
    have hp : (fun r : Record =>
        decide (recordKey r ∉ ([] : List (String × ℚ × String)))) =
        fun _ => true := by
      funext x; simp
    rw [hp, List.filter_true]

lemma firstOccSpec_sublist (rs : List Record) :
    (firstOccSpec rs).Sublist rs := by
  induction rs with
  | nil => exact List.Sublist.refl _
  | cons r rest ih =>
    unfold firstOccSpec
    exact List.Sublist.cons₂ r ((List.filter_sublist _).trans ih)

lemma firstOccSpec_append (ys : List Record) :
    ∀ (xs : List Record) (K : List (String × ℚ × String)),
      (∀ y ∈ ys, recordKey y ∈ K ∨ ∃ x ∈ xs, recordKey x = recordKey y) →
      (firstOccSpec (xs ++ ys)).filter (fun r => decide (recordKey r ∉ K)) =
        (firstOccSpec xs).filter (fun r => decide (recordKey r ∉ K)) := by
  intro xs
  induction xs with
  | nil =>
    intro K h
    have hnil : ∀ a ∈ firstOccSpec ys, ¬(decide (recordKey a ∉ K) = true) := by
      intro a ha
      rcases h a ((firstOccSpec_sublist ys).subset ha) with hK | ⟨x, hx, _⟩
      · simp [hK]
      · exact absurd hx (List.not_mem_nil x)
    simp only [List.nil_append]
    rw [List.filter_eq_nil_iff.mpr hnil]
    rfl
  | cons x rest ih =>
    intro K h
    simp only [List.cons_append]
    unfold firstOccSpec
    rw [List.filter_cons, List.filter_cons, List.filter_filter,
      List.filter_filter]
    have hpt : ∀ l : List Record,
        l.filter (fun a =>
          decide (recordKey a ∉ K) && decide (recordKey a ≠ recordKey x)) =
        l.filter (fun a =>
          decide (recordKey a ∉ (recordKey x :: K))) := by
      intro l
      apply List.filter_congr
      intro a _
      by_cases h1 : recordKey a = recordKey x <;>
        by_cases h2 : recordKey a ∈ K <;>
          simp [h1, h2, List.mem_cons]
    rw [hpt, hpt]
    rw [ih (recordKey x :: K) ?_]
    intro y hy
    rcases h y hy with hK | ⟨x', hx', hkey⟩
    · exact Or.inl (List.mem_cons_of_mem _ hK)
    · rcases List.mem_cons.mp hx' with rfl | hx'rest
      · exact Or.inl (by rw [← hkey]; exact List.mem_cons_self _ _)
      · exact Or.inr ⟨x', hx'rest, hkey⟩

lemma filter_key_nil (l : List Record) :
    l.filter (fun r =>
      decide (recordKey r ∉ ([] : List (String × ℚ × String)))) = l := by
  have hp : (fun r : Record =>
      decide (recordKey r ∉ ([] : List (String × ℚ × String)))) =
      fun _ => true := by
    funext x; simp
  rw [hp, List.filter_true]

lemma combined_self (A : List Record) : combined A A = combined A [] := by
  rw [combined_eq, combined_eq, List.append_nil]
  have h := firstOccSpec_append A A [] (fun y hy => Or.inr ⟨y, hy, rfl⟩)
  rw [filter_key_nil, filter_key_nil] at h
  exact h

end App

namespace App

/-- C4: for every pair of input record lists, the combined result is
their concatenation in input order with duplicates removed, where two
records are duplicates exactly when they agree on (title, price, date)
(the link field is not part of the key), and for each duplicate class
the first occurrence in concatenation order is kept; in particular the
result is a subsequence of the concatenation. -/
theorem claim_C4 (A B : List Record) :
    combined A B = firstOccSpec (A ++ B) ∧
    (combined A B).Sublist (A ++ B) := by
  refine ⟨combined_eq A B, ?_⟩
  rw [combined_eq A B]
  exact firstOccSpec_sublist (A ++ B)

/-- C5: aggregating a record set together with a copy of itself yields
the same combined result, and hence the same statistics, as aggregating
it against the empty second set; the records of the second copy are
literally identical to those of the first, so in particular they agree
on (title, price, date). -/
theorem claim_C5 (A : List Record) :
    combined A A = combined A [] ∧ aggregate A A = aggregate A [] := by
  refine ⟨combined_self A, ?_⟩
  unfold aggregate
  rw [combined_self A]

/-- C6: whenever the HTTP GET for the built URL fails (transport error,
timeout, or non-success status), get_ebay_data returns the empty record
list — an ordinary return value, not an error — and that outcome is
literally the same value returned for a successful fetch whose body
contains no listing containers. -/
theorem claim_C6 (search_term domain : String) (http : String → HttpResult)
    (h : http (buildUrl search_term domain) = HttpResult.error) :
    get_ebay_data search_term domain http = Except.ok [] ∧
    get_ebay_data search_term domain http =
      get_ebay_data search_term domain (fun _ => HttpResult.ok []) := by
  constructor
  · unfold get_ebay_data
    rw [h]
  · unfold get_ebay_data
    rw [h]
    rfl

/-- Witness for C6 at a concrete search term, region and failing
network. -/
theorem claim_C6_witness :
    get_ebay_data "2023 Silver Maple Leaf" "ca" (fun _ => HttpResult.error) =
      Except.ok [] ∧
    get_ebay_data "2023 Silver Maple Leaf" "ca" (fun _ => HttpResult.error) =
      get_ebay_data "2023 Silver Maple Leaf" "ca"
        (fun _ => HttpResult.ok []) :=
  claim_C6 "2023 Silver Maple Leaf" "ca" (fun _ => HttpResult.error) rfl

/-- C7: aggregation returns the explicit empty signal exactly when the
combined, deduplicated record sequence is empty, so no category row and
no overall statistic is produced then; in particular two empty input
sets yield the empty signal. -/
theorem claim_C7 :
    (∀ A B : List Record,
      aggregate A B = AggOutcome.empty ↔ combined A B = []) ∧
    aggregate [] [] = AggOutcome.empty := by
  constructor
  · intro A B
    unfold aggregate
    by_cases h : combined A B = []
    · simp [h]
    · simp [h]
  · rfl

/-- Witness for C7: the equivalence applied to two empty input sets. -/
theorem claim_C7_witness :
    aggregate ([] : List Record) [] = AggOutcome.empty ∧
    combined ([] : List Record) [] = [] :=
  ⟨(claim_C7.1 [] []).mpr rfl, rfl⟩

/-- C10: the pipeline is deterministic: two runs that receive the same
response bodies for the two region URLs of the same query produce
identical results — the output depends on nothing but those two
responses. -/
theorem claim_C10 (query : String) (httpA httpB : String → HttpResult)
    (hca : httpA (buildUrl query "ca") = httpB (buildUrl query "ca"))
    (hcom : httpA (buildUrl query "com") = httpB (buildUrl query "com")) :
    runPipeline query httpA = runPipeline query httpB := by
  unfold runPipeline get_ebay_data
  rw [hca, hcom]

/-- Witness for C10 at a concrete query against two networks that agree
on the two queried URLs but differ elsewhere. -/
theorem claim_C10_witness :
    runPipeline "maple" (fun _ => HttpResult.error) =
      runPipeline "maple"
        (fun u => if u = "other" then HttpResult.ok [] else HttpResult.error) :=
  claim_C10 "maple" (fun _ => HttpResult.error)
    (fun u => if u = "other" then HttpResult.ok [] else HttpResult.error)
    (by rfl) (by rfl)

end App

namespace App

/-- C2: the price parser strips the currency symbol and group
separators, takes the first whitespace-delimited token and parses it as
a decimal number: a container whose price text is the fixture
"$1,234.50" yields a record with price 1234.50; and for any container
whose cleaned price text has a first token that does not parse as a
number, that one candidate is dropped and the remaining containers are
still parsed. -/
theorem claim_C2 :
    processItem mapleItem =
      Except.ok (some ⟨"2023 Maple Leaf", 1234.50, "https://x", "N/A"⟩) ∧
    ∀ (it : Item) (rest : List Item) (t p l : Elem) (tok : String)
      (tl : List String),
      it.selectOne ".s-item__title" = some t →
      it.selectOne ".s-item__price" = some p →
      it.selectOne "a.s-item__link" = some l →
      placeholderTitle t.text = false →
      tokens (cleanPrice p.text) = tok :: tl →
      parseFloat? tok = none →
      processItems (it :: rest) = processItems rest := by
  constructor
  · have h1 : processItem mapleItem =
        Except.ok (some ⟨"2023 Maple Leaf", DecLit.toRat ⟨false, 1234, 50, 2⟩,
          "https://x", "N/A"⟩) := rfl
    have hv : DecLit.toRat ⟨false, 1234, 50, 2⟩ = (1234.50 : ℚ) := by
      norm_num [DecLit.toRat]
    rw [h1, hv]
  · intro it rest t p l tok tl ht hp hl hph htok hpf
    have hskip : processItem it = Except.ok none := by
      unfold processItem
      rw [ht, hp, hl]
      simp [hph, htok, hpf]
    simp [processItems, hskip]

/-- Witness for C2: a container whose first price token is "Best" is
dropped and the following well-formed container is still parsed. -/
theorem claim_C2_witness :
    processItems [bestOfferItem, mapleItem] = processItems [mapleItem] :=
  claim_C2.2 bestOfferItem [mapleItem] ⟨"1867 Token", ""⟩
    ⟨"Best Offer", ""⟩ ⟨"", "https://b"⟩ "Best" ["Offer"]
    rfl rfl rfl rfl rfl rfl

/-- C8 as stated is false: only the date sub-element is looked up
through a prioritized selector pair; the title is read from the single
selector .s-item__title, so this container, which carries its title
only under the older h3.s-item__title markup while price and link are
present, yields no record. -/
theorem claim_C8_counterexample :
    (oldMarkupItem.selectOne "h3.s-item__title").isSome = true ∧
    oldMarkupItem.selectOne ".s-item__title" = none ∧
    (oldMarkupItem.selectOne ".s-item__price").isSome = true ∧
    (oldMarkupItem.selectOne "a.s-item__link").isSome = true ∧
    processItem oldMarkupItem = Except.ok none :=
  ⟨rfl, rfl, rfl, rfl, rfl⟩

/-- C8 amended: only the date sub-element is extracted through a
prioritized pair of selector candidates (the newer ended-date selector
first, the older listingDate selector as fallback), so a container
matching only the older markup for the date still yields a record,
dated from the older element; title, price and link are each extracted
through one single selector, so a container in which any of those three
selectors matches nothing yields no record regardless of any other
markup it carries. -/
theorem claim_C8 :
    (∀ (it : Item) (t p l d : Elem) (tok : String) (tl : List String)
      (v : ℚ),
      it.selectOne ".s-item__title" = some t →
      it.selectOne ".s-item__price" = some p →
      it.selectOne "a.s-item__link" = some l →
      it.selectOne ".s-item__ended-date" = none →
      it.selectOne ".s-item__listingDate" = some d →
      placeholderTitle t.text = false →
      tokens (cleanPrice p.text) = tok :: tl →
      parseFloat? tok = some v →
      processItem it =
        Except.ok (some ⟨pyStrip t.text, v, l.href, pyStrip d.text⟩)) ∧
    (∀ it : Item, it.selectOne ".s-item__title" = none →
      processItem it = Except.ok none) ∧
    (∀ it : Item, it.selectOne ".s-item__price" = none →
      processItem it = Except.ok none) ∧
    (∀ it : Item, it.selectOne "a.s-item__link" = none →
      processItem it = Except.ok none) := by
  refine ⟨?_, ?_, ?_, ?_⟩
  · intro it t p l d tok tl v ht hp hl hd1 hd2 hph htok hpf
    unfold processItem
    rw [ht, hp, hl]
    simp [hph, htok, hpf, dateOf, hd1, hd2, Option.orElse]
  · intro it h
    unfold processItem
    cases ht : it.selectOne ".s-item__title" <;>
      cases hp : it.selectOne ".s-item__price" <;>
        cases hl : it.selectOne "a.s-item__link" <;> simp_all
  · intro it h
    unfold processItem
    cases ht : it.selectOne ".s-item__title" <;>
      cases hp : it.selectOne ".s-item__price" <;>
        cases hl : it.selectOne "a.s-item__link" <;> simp_all
  · intro it h
    unfold processItem
    cases ht : it.selectOne ".s-item__title" <;>
      cases hp : it.selectOne ".s-item__price" <;>
        cases hl : it.selectOne "a.s-item__link" <;> simp_all

/-- Witness for C8: a container whose date appears only under the older
listingDate selector still yields a record dated from it. -/
theorem claim_C8_witness :
    processItem listingDateItem =
      Except.ok (some ⟨"1967 Quarter", DecLit.toRat ⟨false, 5, 0, 0⟩,
        "https://w", "Jun 2"⟩) :=
  claim_C8.1 listingDateItem ⟨"1967 Quarter", ""⟩ ⟨"$5", ""⟩
    ⟨"", "https://w"⟩ ⟨"Jun 2", ""⟩ "5" []
    (DecLit.toRat ⟨false, 5, 0, 0⟩) rfl rfl rfl rfl rfl rfl rfl rfl

/-- C9: a container whose title, price and link extract successfully but
in which neither date selector finds an element still yields a record,
and its date field is the sentinel marker for an unavailable date. -/
theorem claim_C9 (it : Item) (t p l : Elem) (tok : String) (tl : List String)
    (v : ℚ)
    (ht : it.selectOne ".s-item__title" = some t)
    (hp : it.selectOne ".s-item__price" = some p)
    (hl : it.selectOne "a.s-item__link" = some l)
    (hd1 : it.selectOne ".s-item__ended-date" = none)
    (hd2 : it.selectOne ".s-item__listingDate" = none)
    (hph : placeholderTitle t.text = false)
    (htok : tokens (cleanPrice p.text) = tok :: tl)
    (hpf : parseFloat? tok = some v) :
    processItem it = Except.ok (some ⟨pyStrip t.text, v, l.href, "N/A"⟩) := by
  unfold processItem
  rw [ht, hp, hl]
  simp [hph, htok, hpf, dateOf, hd1, hd2, Option.orElse]

/-- Witness for C9: a container with no date element under either
selector yields a record dated with the sentinel. -/
theorem claim_C9_witness :
    processItem noDateItem =
      Except.ok (some ⟨"1936 Dot Cent", DecLit.toRat ⟨false, 42, 0, 0⟩,
        "https://n", "N/A"⟩) :=
  claim_C9 noDateItem ⟨"1936 Dot Cent", ""⟩ ⟨"$42", ""⟩ ⟨"", "https://n"⟩
    "42" [] (DecLit.toRat ⟨false, 42, 0, 0⟩) rfl rfl rfl rfl rfl rfl rfl rfl

end App

namespace App

/-- C1 as stated is false: a container whose title, price and link are
all present and whose title is no placeholder, but whose cleaned price
text contains no token (here the price text is just a dollar sign),
does not merely contribute no record — the subscript of src/app.py:62
raises an uncaught IndexError, so a body holding one well-formed
container and this container produces an exception instead of one
record. -/
theorem claim_C1_counterexample :
    wellFormedItem mapleItem = true ∧
    wellFormedItem dollarItem = false ∧
    placeholderItem dollarItem = false ∧
    processItems [mapleItem, dollarItem] = Except.error () :=
  ⟨by decide, by decide, by decide, rfl⟩

/-- C1 amended: over any body whose containers are each either
well-formed (title, price, link found, no placeholder substring in the
title, first price token scans as a number) or placeholders, parsing
succeeds and yields exactly one record per well-formed container — so N
well-formed plus M placeholder containers yield exactly N records.  Any
other container contributes no record provided its cleaned price text
still has a token (or lacks one of the three elements, or is a
placeholder); a non-placeholder container with title, price and link
present whose cleaned price text has no token instead raises an
uncaught IndexError aborting the whole parse. -/
theorem claim_C1 :
    (∀ items : List Item,
      (∀ it ∈ items, wellFormedItem it = true ∨ placeholderItem it = true) →
      ∃ l, processItems items = Except.ok l ∧
        l.length = (items.filter wellFormedItem).length) ∧
    (∀ it : Item, wellFormedItem it = false → emptyPriceItem it = false →
      processItem it = Except.ok none) ∧
    (∀ it : Item, emptyPriceItem it = true →
      processItem it = Except.error ()) := by
  refine ⟨?_, processItem_skip, processItem_of_emptyPrice⟩
  intro items
  induction items with
  | nil => intro _; exact ⟨[], rfl, rfl⟩
  | cons it rest ih =>
    intro h
    obtain ⟨l, hl, hlen⟩ := ih (fun x hx => h x (List.mem_cons_of_mem _ hx))
    rcases h it (List.mem_cons_self _ _) with hwf | hph
    · obtain ⟨r, hr⟩ := processItem_of_wellFormed it hwf
      refine ⟨r :: l, ?_, ?_⟩
      · simp [processItems, hr, hl]
      · simp [List.filter_cons, hwf, hlen]
    · have hwf : wellFormedItem it = false := placeholder_not_wellFormed it hph
      refine ⟨l, ?_, ?_⟩
      · simp [processItems, processItem_of_placeholder it hph, hl]
      · simp [List.filter_cons, hwf, hlen]

/-- Witness for C1: one well-formed container and one placeholder
container yield exactly one record. -/
theorem claim_C1_witness :
    ∃ l, processItems [mapleItem, shopItem] = Except.ok l ∧
      l.length = ([mapleItem, shopItem].filter wellFormedItem).length :=
  claim_C1.1 [mapleItem, shopItem] (by decide)

/-- C3: for every non-empty combined result, aggregation produces one
category row per distinct title (grouped by the exact title string) with
that group's count, mean, minimum and maximum price, and an overall
summary of median, mean, minimum and maximum; the three equal-priced
Widget records give one row with count 3, mean 20, bounds 10 and 30 and
overall median 20, and the two records titled A and B give two rows and
overall median 30, the average of the two middle-ranked values. -/
theorem claim_C3 :
    (∀ rs : List Record, rs ≠ [] →
      ((grouped rs).map CatRow.title =
          sortStr (dedupFirst (rs.map Record.title)) ∧
        ∀ row ∈ grouped rs,
          row.count = (groupPrices rs row.title).length ∧
          row.mean = listMean (groupPrices rs row.title) ∧
          row.low = listMin (groupPrices rs row.title) ∧
          row.high = listMax (groupPrices rs row.title)) ∧
      overall rs = ⟨medianRat (rs.map Record.price),
        listMean (rs.map Record.price), listMin (rs.map Record.price),
        listMax (rs.map Record.price)⟩) ∧
    grouped widgetRecords = [⟨"Widget", 3, 20, 10, 30⟩] ∧
    overall widgetRecords = ⟨20, 20, 10, 30⟩ ∧
    grouped abRecords = [⟨"A", 1, 10, 10, 10⟩, ⟨"B", 1, 50, 50, 50⟩] ∧
    overall abRecords = ⟨30, 30, 10, 50⟩ := by
  refine ⟨?_, ?_, ?_, ?_, ?_⟩
  · intro rs _
    refine ⟨⟨?_, ?_⟩, rfl⟩
    · simp [grouped, List.map_map, Function.comp_def]
    · intro row hrow
      unfold grouped at hrow
      rw [List.mem_map] at hrow
      obtain ⟨t, _, heq⟩ := hrow
      subst heq
      exact ⟨rfl, rfl, rfl, rfl⟩
  · have h : grouped widgetRecords =
        [⟨"Widget", 3, listMean [10, 20, 30], listMin [10, 20, 30],
          listMax [10, 20, 30]⟩] := rfl
    rw [h]
    norm_num [listMean, listMin, listMax, min_def, max_def]
  · have h : overall widgetRecords =
        ⟨medianRat [10, 20, 30], listMean [10, 20, 30], listMin [10, 20, 30],
          listMax [10, 20, 30]⟩ := rfl
    rw [h]
    norm_num [medianRat, sortRat, insertRat, listMean, listMin, listMax,
      min_def, max_def]
  · have h : grouped abRecords =
        [⟨"A", 1, listMean [10], listMin [10], listMax [10]⟩,
         ⟨"B", 1, listMean [50], listMin [50], listMax [50]⟩] := rfl
    rw [h]
    norm_num [listMean, listMin, listMax]
  · have h : overall abRecords =
        ⟨medianRat [10, 50], listMean [10, 50], listMin [10, 50],
          listMax [10, 50]⟩ := rfl
    rw [h]
    norm_num [medianRat, sortRat, insertRat, listMean, listMin, listMax,
      min_def, max_def]

/-- Witness for C3: the general clause applied to the non-empty Widget
fixture. -/
theorem claim_C3_witness :
    (grouped widgetRecords).map CatRow.title =
      sortStr (dedupFirst (widgetRecords.map Record.title)) ∧
    overall widgetRecords = ⟨medianRat (widgetRecords.map Record.price),
      listMean (widgetRecords.map Record.price),
      listMin (widgetRecords.map Record.price),
      listMax (widgetRecords.map Record.price)⟩ :=
  ⟨((claim_C3.1 widgetRecords (List.cons_ne_nil _ _)).1).1,
   (claim_C3.1 widgetRecords (List.cons_ne_nil _ _)).2⟩

end App
